import Mathlib

/-!
# Verification of the KittyCAD modeling-API example (`src/rust/src/main.rs`)

Shallow embedding of the example program in Lean 4.

Modelling conventions:
* A `Uuid` (`uuid::Uuid::new_v4()`, a random 128-bit identifier) is modelled
  as a natural number drawn from an identifier supply `uuid : Nat → Nat`,
  queried at successive indices in the order the program calls `new_v4()`.
  Freshness of the random identifiers is the hypothesis that the supply is
  injective.
* `f64` coordinates are modelled as `ℚ`: the program only negates the
  half-width and doubles it (`width * 2.0`), both exact in binary floating
  point (absent overflow), so exact arithmetic is faithful here.
* A text frame's payload string is represented by the result of parsing it
  (`serde_json::from_str::<WebSocketResponse>`): `none` stands for a string
  the untagged two-shape probe rejects, `some r` for one parsing to `r`.
  Nothing in the program inspects the raw string otherwise.
* The third-party image decoder (`image::io::Reader::decode`) and the file
  writer (`DynamicImage::save`) are parameters of the receive loop; the loop
  records, in a trace, every byte payload passed to the decoder and every
  path at which a save was attempted.
* A Rust `assert!` failure (panic/abort) is the explicit outcome `panicked`,
  distinct from every `Result::Err` outcome.
-/

/-- `kittycad::types::Point3D` with `f64` fields modelled as `ℚ`. -/
structure Point3D where
  x : ℚ
  y : ℚ
  z : ℚ
  deriving DecidableEq, Repr

/-- `kittycad::types::PathSegment`, restricted to the `Line` variant used by
the program. -/
inductive PathSegment where
  | line (endPt : Point3D) (relative : Bool)
  deriving DecidableEq, Repr

/-- `kittycad::types::ImageFormat`, restricted to the variant used. -/
inductive ImageFormat where
  | png
  deriving DecidableEq, Repr

/-- `kittycad::types::ModelingCmd`, restricted to the variants the program
sends. Identifier-valued fields (`Uuid`) are `Nat` per the modelling
conventions; the `to` field of `MovePathPen` is spelled `toPt` because `to`
is reserved in Lean. -/
inductive ModelingCmd where
  | startPath
  | movePathPen (path : Nat) (toPt : Point3D)
  | extendPath (path : Nat) (segment : PathSegment)
  | closePath (path_id : Nat)
  | extrude (cap : Bool) (distance : ℚ) (target : Nat)
  | takeSnapshot (format : ImageFormat)
  deriving DecidableEq, Repr

/-- `kittycad::types::WebSocketRequest::ModelingCmdReq { cmd, cmd_id }`:
the outbound wire envelope. -/
structure WebSocketRequest where
  cmd : ModelingCmd
  cmd_id : Nat
  deriving DecidableEq, Repr

/-- `draw_cube` (src/rust/src/main.rs, lines 47-144): builds and sends the
nine outbound messages, in program order. The supply `uuid` is queried at
index `0` for `path_id` (the `StartPath` call) and at `1`–`8` for the later
`Uuid::new_v4()` calls, in source order. The returned list is the sequence
handed to `write_to_ws.send`, in order. -/
def draw_cube (uuid : Nat → Nat) (width : ℚ) : List WebSocketRequest :=
  let to_msg : ModelingCmd → Nat → WebSocketRequest := fun cmd cmd_id => ⟨cmd, cmd_id⟩
  let path_id := uuid 0
  let start : Point3D := ⟨-width, -width, -width⟩
  let points : List Point3D :=
    [⟨width, -width, -width⟩, ⟨width, width, -width⟩, ⟨-width, width, -width⟩, start]
  [to_msg ModelingCmd.startPath path_id,
   to_msg (ModelingCmd.movePathPen path_id start) (uuid 1)]
  ++ (points.enum.map fun ip =>
       to_msg (ModelingCmd.extendPath path_id (PathSegment.line ip.2 false)) (uuid (2 + ip.1)))
  ++ [to_msg (ModelingCmd.closePath path_id) (uuid 6),
      to_msg (ModelingCmd.extrude true (width * 2) path_id) (uuid 7),
      to_msg (ModelingCmd.takeSnapshot ImageFormat.png) (uuid 8)]

/-- The path identifier a command references, if any: `MovePathPen.path`,
`ExtendPath.path`, `ClosePath.path_id`, `Extrude.target`. `StartPath` and
`TakeSnapshot` reference none. -/
def cmdPathRef : ModelingCmd → Option Nat
  | ModelingCmd.startPath => none
  | ModelingCmd.movePathPen p _ => some p
  | ModelingCmd.extendPath p _ => some p
  | ModelingCmd.closePath p => some p
  | ModelingCmd.extrude _ _ p => some p
  | ModelingCmd.takeSnapshot _ => none

/-- `kittycad::types::OkModelingCmdResponse`, restricted to the variants the
receive loop distinguishes; every other variant is collapsed into
`otherResp` (the loop's `_ => {}` arm). The `TakeSnapshot` payload carries
`data.contents : Vec<u8>`, modelled as `List Nat`. -/
inductive OkModelingCmdResponse where
  | empty
  | takeSnapshot (contents : List Nat)
  | otherResp
  deriving DecidableEq, Repr

/-- `kittycad::types::OkWebSocketResponseData`: the program only inspects
the `Modeling { modeling_response }` variant; all others are collapsed into
`nonModeling` (the `if let` falls through). -/
inductive OkWebSocketResponseData where
  | modeling (modeling_response : OkModelingCmdResponse)
  | nonModeling
  deriving DecidableEq, Repr

/-- `kittycad::types::SuccessWebSocketResponse` (the fields the program
reads). -/
structure SuccessWebSocketResponse where
  success : Bool
  resp : OkWebSocketResponseData
  deriving DecidableEq, Repr

/-- `kittycad::types::FailureWebSocketResponse` (the fields the program
reads); each error is represented by its display string. -/
structure FailureWebSocketResponse where
  success : Bool
  errors : List String
  deriving DecidableEq, Repr

/-- The untagged union `WebSocketResponse` from src/rust/src/main.rs
(lines 204-210): serde tries the `Success` shape first, then `Failure`. -/
inductive WebSocketResponse where
  | success (s : SuccessWebSocketResponse)
  | failure (f : FailureWebSocketResponse)
  deriving DecidableEq, Repr

/-- Error outcomes of the receive loop, one constructor per `bail!`/`?`
site. `remoteError m` abstracts `bail!("websocket failure: {m}")`, and
`remoteError "no error given"` the `bail!("websocket failure, no error
given")` arm, following the spec's taxonomy names; `malformedFrame` is the
`serde_json::from_str` error propagated by `?`; `unexpectedFrameKind` is the
`bail!` for a frame that is neither text nor pong; `channelError` a
transport-level read error (`msg?`); `decodeError`/`saveError` the `?` on
`img.decode()` and `img.save(...)`. -/
inductive RunError where
  | channelError (msg : String)
  | malformedFrame
  | unexpectedFrameKind
  | remoteError (msg : String)
  | decodeError (msg : String)
  | saveError (msg : String)
  deriving DecidableEq, Repr

/-- Outcome of decoding one inbound text frame: success payload, error, or
panic (a failed `assert!`). -/
inductive DecodeOutcome where
  | ok (resp : OkWebSocketResponseData)
  | err (e : RunError)
  | panicked
  deriving DecidableEq, Repr

/-- `ws_resp_from_text` (src/rust/src/main.rs, lines 150-165), on the parse
result of the frame text. `none` (parse failure against both shapes)
propagates the serde error; a `Success`-shape parse asserts `s.success`
(panic when false) and returns `s.resp`; a `Failure`-shape parse asserts
`!f.success` (panic when true), then `f.errors.pop()` takes the LAST
element, or bails with "no error given" when the vector is empty. -/
def ws_resp_from_text : Option WebSocketResponse → DecodeOutcome
  | none => DecodeOutcome.err RunError.malformedFrame
  | some (WebSocketResponse.success s) =>
      if s.success then DecodeOutcome.ok s.resp else DecodeOutcome.panicked
  | some (WebSocketResponse.failure f) =>
      if f.success then DecodeOutcome.panicked
      else
        match f.errors.getLast? with
        | none => DecodeOutcome.err (RunError.remoteError "no error given")
        | some err => DecodeOutcome.err (RunError.remoteError err)

/-- `tungstenite::Message`: the inbound frame kinds. A text frame carries
the parse result of its string (see modelling conventions); `binary`,
`ping`, `pong` carry their byte payloads; `close` and `frame` are the
remaining variants. -/
inductive WsMsg where
  | text (parsed : Option WebSocketResponse)
  | binary (payload : List Nat)
  | ping (payload : List Nat)
  | pong (payload : List Nat)
  | close
  | frame
  deriving DecidableEq, Repr

/-- `text_from_ws` (src/rust/src/main.rs, lines 167-176): text frames yield
their payload, pongs are skipped (`Ok(None)`), everything else bails
("only expected text or pong responses"). -/
def text_from_ws : WsMsg → Except RunError (Option (Option WebSocketResponse))
  | WsMsg.text t => Except.ok (some t)
  | WsMsg.pong _ => Except.ok none
  | _ => Except.error RunError.unexpectedFrameKind

/-- Terminal outcome of the receive loop's async block. -/
inductive LoopOutcome where
  | ok
  | err (e : RunError)
  | panicked
  deriving DecidableEq, Repr

/-- Observable trace of one run of the receive loop: its outcome, the
number of stream items pulled (`read_from_ws.next()` returning `Some`),
every byte payload handed to the image decoder, and every path at which a
save was attempted. -/
structure LoopTrace where
  outcome : LoopOutcome
  consumed : Nat
  decoded : List (List Nat)
  saveCalls : List String
  deriving DecidableEq, Repr

/-- Account for one consumed stream item in front of the trace of the rest
of the loop. -/
def LoopTrace.after (t : LoopTrace) : LoopTrace :=
  ⟨t.outcome, t.consumed + 1, t.decoded, t.saveCalls⟩

/-- The `server_responses` async block of `export_png` (src/rust/src/main.rs,
lines 179-200), run over a finite list of stream items
(`Result<WsMsg, Error>` from `read_from_ws.next()`). `decode` is the
third-party `image` crate's PNG decode, `save` the image write; both are
parameters. The loop:
* stops with `Ok(())` when the stream ends (`next()` returns `None`);
* propagates read errors (`msg?`), `text_from_ws` errors, and
  `ws_resp_from_text` errors;
* skips pongs and every non-terminal response (`Empty`, other modeling
  responses, non-`Modeling` data) and continues with the next item;
* on `Modeling → TakeSnapshot { data }` decodes `data.contents`, saves on
  success, and `break`s — never pulling another item. -/
def server_responses {Img : Type} (decode : List Nat → Except String Img)
    (save : Img → String → Except String Unit) (img_output_path : String) :
    List (Except String WsMsg) → LoopTrace
  | [] => ⟨LoopOutcome.ok, 0, [], []⟩
  | item :: rest =>
    match item with
    | Except.error e => ⟨LoopOutcome.err (RunError.channelError e), 1, [], []⟩
    | Except.ok msg =>
      match text_from_ws msg with
      | Except.error e => ⟨LoopOutcome.err e, 1, [], []⟩
      | Except.ok none =>
          (server_responses decode save img_output_path rest).after
      | Except.ok (some parsed) =>
        match ws_resp_from_text parsed with
        | DecodeOutcome.panicked => ⟨LoopOutcome.panicked, 1, [], []⟩
        | DecodeOutcome.err e => ⟨LoopOutcome.err e, 1, [], []⟩
        | DecodeOutcome.ok (OkWebSocketResponseData.modeling mr) =>
          match mr with
          | OkModelingCmdResponse.empty =>
              (server_responses decode save img_output_path rest).after
          | OkModelingCmdResponse.otherResp =>
              (server_responses decode save img_output_path rest).after
          | OkModelingCmdResponse.takeSnapshot data =>
            match decode data with
            | Except.error e =>
                ⟨LoopOutcome.err (RunError.decodeError e), 1, [data], []⟩
            | Except.ok img =>
              match save img img_output_path with
              | Except.error e =>
                  ⟨LoopOutcome.err (RunError.saveError e), 1, [data], [img_output_path]⟩
              | Except.ok _ => ⟨LoopOutcome.ok, 1, [data], [img_output_path]⟩
        | DecodeOutcome.ok OkWebSocketResponseData.nonModeling =>
            (server_responses decode save img_output_path rest).after

/-- The configuration read at start-up (src/rust/src/main.rs, lines 22-23):
the process environment restricted to the two variables the program reads. -/
structure ProcessEnv where
  kittycad_api_token : Option String
  image_output_path : Option String
  deriving DecidableEq, Repr

/-- `ConfigError`: the fatal start-up error (missing credential). -/
inductive ConfigError where
  | missingToken
  deriving DecidableEq, Repr

/-- The start-up configuration step of `main` (src/rust/src/main.rs, lines
22-23): a missing `KITTYCAD_API_TOKEN` is fatal (`.context(...)?`); a
missing `IMAGE_OUTPUT_PATH` falls back to `"model.png"`
(`unwrap_or_else`). Returns `(token, img_output_path)`. -/
def mainConfig (env : ProcessEnv) : Except ConfigError (String × String) :=
  match env.kittycad_api_token with
  | none => Except.error ConfigError.missingToken
  | some token =>
      Except.ok (token, env.image_output_path.getD "model.png")

/-- A stream item carrying the server's trivial acknowledgement of a
geometry command: a text frame whose payload parses as
`{"success":true,"resp":{"type":"modeling","data":{"modeling_response":{"type":"empty"}}}}`. -/
def emptyAckFrame : Except String WsMsg :=
  Except.ok (WsMsg.text (some (WebSocketResponse.success
    ⟨true, OkWebSocketResponseData.modeling OkModelingCmdResponse.empty⟩)))

/-- A stream item carrying the terminal snapshot response: a text frame
whose payload parses as the `Modeling → TakeSnapshot` success response with
the given byte contents. -/
def snapshotFrame (data : List Nat) : Except String WsMsg :=
  Except.ok (WsMsg.text (some (WebSocketResponse.success
    ⟨true, OkWebSocketResponseData.modeling (OkModelingCmdResponse.takeSnapshot data)⟩)))

/-- A stream item the receive loop consumes without error and without
treating it as a terminal response: a pong, or a text frame parsing as a
successful non-terminal response (`Empty`, another modeling response, or a
non-`Modeling` payload). -/
def nonTerminalFrame : Except String WsMsg → Bool
  | Except.ok (WsMsg.pong _) => true
  | Except.ok (WsMsg.text (some (WebSocketResponse.success
      ⟨true, OkWebSocketResponseData.modeling OkModelingCmdResponse.empty⟩))) => true
  | Except.ok (WsMsg.text (some (WebSocketResponse.success
      ⟨true, OkWebSocketResponseData.modeling OkModelingCmdResponse.otherResp⟩))) => true
  | Except.ok (WsMsg.text (some (WebSocketResponse.success
      ⟨true, OkWebSocketResponseData.nonModeling⟩))) => true
  | _ => false

/-- The claim's notion of a non-payload keep-alive control frame, modelled
from the spec's words ("non-payload control frame (keep-alive)",
"keep-alive pings"): the WebSocket control frames used for
keep-alive/health checks are Ping and Pong. This is the spec-side
definition used to compare the claim against `text_from_ws`. -/
def isKeepAliveControlFrame : WsMsg → Bool
  | WsMsg.ping _ => true
  | WsMsg.pong _ => true
  | _ => false

/-- Claim C3: for every half-width `w`, `draw_cube` sends, strictly in this
order and nothing else: StartPath; MovePathPen to (−w,−w,−w); four
ExtendPath Line segments with relative=false ending at (w,−w,−w), (w,w,−w),
(−w,w,−w), (−w,−w,−w) in that order; ClosePath; Extrude with distance
exactly 2×w and cap=true; TakeSnapshot with PNG format. -/
theorem draw_cube_sequence (uuid : Nat → Nat) (w : ℚ) :
    draw_cube uuid w =
      [⟨ModelingCmd.startPath, uuid 0⟩,
       ⟨ModelingCmd.movePathPen (uuid 0) ⟨-w, -w, -w⟩, uuid 1⟩,
       ⟨ModelingCmd.extendPath (uuid 0) (PathSegment.line ⟨w, -w, -w⟩ false), uuid 2⟩,
       ⟨ModelingCmd.extendPath (uuid 0) (PathSegment.line ⟨w, w, -w⟩ false), uuid 3⟩,
       ⟨ModelingCmd.extendPath (uuid 0) (PathSegment.line ⟨-w, w, -w⟩ false), uuid 4⟩,
       ⟨ModelingCmd.extendPath (uuid 0) (PathSegment.line ⟨-w, -w, -w⟩ false), uuid 5⟩,
       ⟨ModelingCmd.closePath (uuid 0), uuid 6⟩,
       ⟨ModelingCmd.extrude true (2 * w) (uuid 0), uuid 7⟩,
       ⟨ModelingCmd.takeSnapshot ImageFormat.png, uuid 8⟩] := by
  simp [draw_cube, List.enum, List.enumFrom, mul_comm]

/-- Claim C6: across the whole sent sequence, every outbound message carries
a freshly generated correlation identifier and the identifiers are pairwise
distinct (under the freshness hypothesis that the identifier supply is
injective); the StartPath message's identifier is additionally — and only
for StartPath — reused as the path identifier referenced by every
subsequent path-scoped command, and no later message's own identifier is
ever used as a path reference. -/
theorem draw_cube_fresh_ids (uuid : Nat → Nat) (w : ℚ)
    (hinj : Function.Injective uuid) :
    ((draw_cube uuid w).map WebSocketRequest.cmd_id).Nodup
    ∧ (draw_cube uuid w).head? = some ⟨ModelingCmd.startPath, uuid 0⟩
    ∧ (∀ m ∈ draw_cube uuid w, ∀ p, cmdPathRef m.cmd = some p → p = uuid 0)
    ∧ (∀ m ∈ (draw_cube uuid w).tail, cmdPathRef m.cmd ≠ some m.cmd_id) := by
  have hd : draw_cube uuid w =
      [⟨ModelingCmd.startPath, uuid 0⟩,
       ⟨ModelingCmd.movePathPen (uuid 0) ⟨-w, -w, -w⟩, uuid 1⟩,
       ⟨ModelingCmd.extendPath (uuid 0) (PathSegment.line ⟨w, -w, -w⟩ false), uuid 2⟩,
       ⟨ModelingCmd.extendPath (uuid 0) (PathSegment.line ⟨w, w, -w⟩ false), uuid 3⟩,
       ⟨ModelingCmd.extendPath (uuid 0) (PathSegment.line ⟨-w, w, -w⟩ false), uuid 4⟩,
       ⟨ModelingCmd.extendPath (uuid 0) (PathSegment.line ⟨-w, -w, -w⟩ false), uuid 5⟩,
       ⟨ModelingCmd.closePath (uuid 0), uuid 6⟩,
       ⟨ModelingCmd.extrude true (w * 2) (uuid 0), uuid 7⟩,
       ⟨ModelingCmd.takeSnapshot ImageFormat.png, uuid 8⟩] := by
    simp [draw_cube, List.enum, List.enumFrom]
  refine ⟨?_, ?_, ?_, ?_⟩
  · rw [hd]
    have hmap : (([⟨ModelingCmd.startPath, uuid 0⟩,
       ⟨ModelingCmd.movePathPen (uuid 0) ⟨-w, -w, -w⟩, uuid 1⟩,
       ⟨ModelingCmd.extendPath (uuid 0) (PathSegment.line ⟨w, -w, -w⟩ false), uuid 2⟩,
       ⟨ModelingCmd.extendPath (uuid 0) (PathSegment.line ⟨w, w, -w⟩ false), uuid 3⟩,
       ⟨ModelingCmd.extendPath (uuid 0) (PathSegment.line ⟨-w, w, -w⟩ false), uuid 4⟩,
       ⟨ModelingCmd.extendPath (uuid 0) (PathSegment.line ⟨-w, -w, -w⟩ false), uuid 5⟩,
       ⟨ModelingCmd.closePath (uuid 0), uuid 6⟩,
       ⟨ModelingCmd.extrude true (w * 2) (uuid 0), uuid 7⟩,
       ⟨ModelingCmd.takeSnapshot ImageFormat.png, uuid 8⟩] :
        List WebSocketRequest).map WebSocketRequest.cmd_id)
        = List.map uuid [0, 1, 2, 3, 4, 5, 6, 7, 8] := rfl
    rw [hmap]
    exact List.Nodup.map hinj (by decide)
  · rw [hd]
    rfl
  · intro m hm p hp
    rw [hd] at hm
    fin_cases hm <;> simp_all [cmdPathRef]
  · intro m hm
    rw [hd] at hm
    fin_cases hm <;> simp [cmdPathRef] <;>
      exact fun h => absurd (hinj h) (by decide)

/-- Witness for draw_cube_fresh_ids: the identity supply is injective, and
the conclusion holds for it at half-width 1. -/
theorem draw_cube_fresh_ids_witness :
    Function.Injective (fun n : Nat => n)
    ∧ (((draw_cube (fun n : Nat => n) 1).map WebSocketRequest.cmd_id).Nodup
      ∧ (draw_cube (fun n : Nat => n) 1).head? = some ⟨ModelingCmd.startPath, 0⟩
      ∧ (∀ m ∈ draw_cube (fun n : Nat => n) 1, ∀ p, cmdPathRef m.cmd = some p → p = 0)
      ∧ (∀ m ∈ (draw_cube (fun n : Nat => n) 1).tail, cmdPathRef m.cmd ≠ some m.cmd_id)) :=
  ⟨fun _ _ h => h, draw_cube_fresh_ids (fun n => n) 1 (fun _ _ h => h)⟩

/-- Claim C2, counterexample: a text frame whose JSON is
`{"success":true,"errors":["e1"]}` parses as the Failure shape (the Success
probe fails for lack of a `resp` field) with a non-empty errors sequence,
yet decoding panics on `assert!(!f.success)` instead of failing with
`RemoteError("e1")` as the claim requires for every Failure-shape frame with
non-empty errors. -/
theorem ws_resp_failure_shape_cex :
    ws_resp_from_text (some (WebSocketResponse.failure ⟨true, ["e1"]⟩))
        = DecodeOutcome.panicked
    ∧ ws_resp_from_text (some (WebSocketResponse.failure ⟨true, ["e1"]⟩))
        ≠ DecodeOutcome.err (RunError.remoteError "e1") := by
  exact ⟨rfl, by decide⟩

/-- Claim C2 as amended: restricted to frames whose `success` field agrees
with their shape. A Failure-shape frame with `success=false` and non-empty
errors fails with RemoteError carrying the last error; with empty errors it
fails with RemoteError("no error given"); a Success-shape frame with
`success=true` returns the inner payload; and no Success-shape frame (either
value of `success`) ever yields a RemoteError. -/
theorem ws_resp_decode (d : OkWebSocketResponseData) (errs : List String)
    (e m : String) (b : Bool) :
    ws_resp_from_text (some (WebSocketResponse.success ⟨true, d⟩)) = DecodeOutcome.ok d
    ∧ ws_resp_from_text (some (WebSocketResponse.failure ⟨false, errs ++ [e]⟩))
        = DecodeOutcome.err (RunError.remoteError e)
    ∧ ws_resp_from_text (some (WebSocketResponse.failure ⟨false, []⟩))
        = DecodeOutcome.err (RunError.remoteError "no error given")
    ∧ ws_resp_from_text (some (WebSocketResponse.success ⟨b, d⟩))
        ≠ DecodeOutcome.err (RunError.remoteError m) := by
  refine ⟨rfl, ?_, rfl, ?_⟩
  · simp [ws_resp_from_text]
  · cases b <;> simp [ws_resp_from_text]

/-- Claim C10: the `success` boolean is only checked by assertions — a frame
parsing as the Success shape but carrying `success:false` panics (failed
`assert!(s.success)`) rather than producing a typed error, and likewise a
Failure-shape frame carrying `success:true` panics on `assert!(!f.success)`. -/
theorem ws_resp_assert_panics (d : OkWebSocketResponseData) (errs : List String) :
    ws_resp_from_text (some (WebSocketResponse.success ⟨false, d⟩)) = DecodeOutcome.panicked
    ∧ ws_resp_from_text (some (WebSocketResponse.failure ⟨true, errs⟩))
        = DecodeOutcome.panicked :=
  ⟨rfl, rfl⟩

/-- Claim C5, counterexample: a Ping frame is a non-payload keep-alive
control frame (the spec speaks of filtering "keep-alive pings"), yet
`text_from_ws` does not skip it — it fails with the unexpected-frame error,
contradicting the claim that such frames are skipped without error. -/
theorem ping_not_skipped_cex :
    isKeepAliveControlFrame (WsMsg.ping []) = true
    ∧ text_from_ws (WsMsg.ping []) = Except.error RunError.unexpectedFrameKind
    ∧ text_from_ws (WsMsg.ping []) ≠ Except.ok none := by
  refine ⟨rfl, rfl, ?_⟩
  simp [text_from_ws]

/-- Claim C5 as amended: only Pong frames are skipped without error and
without being treated as a response (the receive loop just moves to the next
item); every frame that is neither text nor Pong — including Ping — makes
the receive loop fail with the unexpected-frame-kind error after consuming
that one item. -/
theorem frame_filtering {Img : Type} (decode : List Nat → Except String Img)
    (save : Img → String → Except String Unit) (path : String) (b : List Nat)
    (rest : List (Except String WsMsg)) :
    server_responses decode save path (Except.ok (WsMsg.pong b) :: rest)
      = (server_responses decode save path rest).after
    ∧ server_responses decode save path (Except.ok (WsMsg.ping b) :: rest)
      = ⟨LoopOutcome.err RunError.unexpectedFrameKind, 1, [], []⟩
    ∧ server_responses decode save path (Except.ok (WsMsg.binary b) :: rest)
      = ⟨LoopOutcome.err RunError.unexpectedFrameKind, 1, [], []⟩
    ∧ server_responses decode save path (Except.ok WsMsg.close :: rest)
      = ⟨LoopOutcome.err RunError.unexpectedFrameKind, 1, [], []⟩
    ∧ server_responses decode save path (Except.ok WsMsg.frame :: rest)
      = ⟨LoopOutcome.err RunError.unexpectedFrameKind, 1, [], []⟩ :=
  ⟨rfl, rfl, rfl, rfl, rfl⟩

/-- Claim C9, counterexample: with the credential present but the output
path variable absent, start-up does not fail — it succeeds with the default
path "model.png" (`unwrap_or_else`), contradicting the claim that an absent
output path is a fatal configuration error. -/
theorem missing_output_path_cex :
    mainConfig ⟨some "token", none⟩ = Except.ok ("token", "model.png") := rfl

/-- Claim C9 as amended: an absent authentication credential is a fatal
configuration error, but an absent output path is not — it falls back to
the default "model.png"; when both are present, both are used as given. -/
theorem startup_config (p : Option String) (t pth : String) :
    mainConfig ⟨none, p⟩ = Except.error ConfigError.missingToken
    ∧ mainConfig ⟨some t, none⟩ = Except.ok (t, "model.png")
    ∧ mainConfig ⟨some t, some pth⟩ = Except.ok (t, pth) :=
  ⟨rfl, rfl, rfl⟩

/-- Helper: the receive loop consumes a non-terminal item (pong or
successful non-terminal response) and continues with the rest of the
stream, only accounting for the consumed item. -/
theorem server_responses_skip {Img : Type} (decode : List Nat → Except String Img)
    (save : Img → String → Except String Unit) (path : String)
    (f : Except String WsMsg) (rest : List (Except String WsMsg))
    (hf : nonTerminalFrame f = true) :
    server_responses decode save path (f :: rest)
      = (server_responses decode save path rest).after := by
  rcases f with e | m
  · simp [nonTerminalFrame] at hf
  rcases m with t | b | b | b | - | -
  · rcases t with - | (⟨sb, d⟩ | fl)
    · simp [nonTerminalFrame] at hf
    · cases sb
      · simp [nonTerminalFrame] at hf
      · rcases d with mr | -
        · rcases mr with - | data | -
          · rfl
          · simp [nonTerminalFrame] at hf
          · rfl
        · rfl
    · simp [nonTerminalFrame] at hf
  · simp [nonTerminalFrame] at hf
  · simp [nonTerminalFrame] at hf
  · rfl
  · simp [nonTerminalFrame] at hf
  · simp [nonTerminalFrame] at hf

/-- Helper: on a stream headed by the terminal snapshot frame, the loop's
result does not depend on the items behind the snapshot. -/
theorem server_responses_snapshot_stops {Img : Type}
    (decode : List Nat → Except String Img) (save : Img → String → Except String Unit)
    (path : String) (data : List Nat) (junk : List (Except String WsMsg)) :
    server_responses decode save path (snapshotFrame data :: junk)
      = server_responses decode save path [snapshotFrame data] := rfl

/-- Helper: processing the terminal snapshot frame consumes exactly one
item and hands its contents to the decoder exactly once, whatever the
decoder and writer return. -/
theorem server_responses_snapshot_trace {Img : Type}
    (decode : List Nat → Except String Img) (save : Img → String → Except String Unit)
    (path : String) (data : List Nat) (junk : List (Except String WsMsg)) :
    (server_responses decode save path (snapshotFrame data :: junk)).consumed = 1
    ∧ (server_responses decode save path (snapshotFrame data :: junk)).decoded = [data] := by
  rcases hdec : decode data with e | img
  · simp [server_responses, snapshotFrame, text_from_ws, ws_resp_from_text, hdec]
  · rcases hsave : save img path with e | u
    · simp [server_responses, snapshotFrame, text_from_ws, ws_resp_from_text, hdec, hsave]
    · simp [server_responses, snapshotFrame, text_from_ws, ws_resp_from_text, hdec, hsave]

/-- Claim C1, counterexample: an inbound stream that ends (here after a
single Empty acknowledgement) before any terminal TakeSnapshot response
makes the receive loop return success — the `while let` simply runs out of
items and the block yields `Ok(())` — instead of failing with a
StreamEndedWithoutArtifact protocol error (no such error exists in the
code). -/
theorem stream_end_returns_ok_cex :
    server_responses (fun _ => (Except.error "bad png" : Except String Unit))
      (fun _ _ => Except.ok ()) "model.png" [emptyAckFrame]
      = ⟨LoopOutcome.ok, 1, [], []⟩ := rfl

/-- Claim C1 as amended: if the inbound stream ends before any terminal
TakeSnapshot response — every item being a pong or a successful
non-terminal response — the receive loop completes successfully (`Ok`),
having consumed every item, with no decoder call and no file written. -/
theorem stream_end_without_artifact_ok {Img : Type}
    (decode : List Nat → Except String Img) (save : Img → String → Except String Unit)
    (path : String) (frames : List (Except String WsMsg))
    (h : ∀ f ∈ frames, nonTerminalFrame f = true) :
    server_responses decode save path frames
      = ⟨LoopOutcome.ok, frames.length, [], []⟩ := by
  induction frames with
  | nil => rfl
  | cons f rest ih =>
    rw [server_responses_skip decode save path f rest (h f (List.mem_cons_self f rest)),
      ih (fun g hg => h g (List.mem_cons_of_mem f hg))]
    rfl

/-- Witness for stream_end_without_artifact_ok: a two-item stream (one
Empty acknowledgement, one pong) is all non-terminal, and the loop returns
success having consumed both items. -/
theorem stream_end_without_artifact_ok_witness :
    (∀ f ∈ [emptyAckFrame, Except.ok (WsMsg.pong [])], nonTerminalFrame f = true)
    ∧ server_responses (fun _ => (Except.error "bad png" : Except String Unit))
        (fun _ _ => Except.ok ()) "model.png" [emptyAckFrame, Except.ok (WsMsg.pong [])]
        = ⟨LoopOutcome.ok, 2, [], []⟩ :=
  ⟨by decide, stream_end_without_artifact_ok _ _ _ _ (by decide)⟩

/-- Claim C4: on a synthetic inbound stream of N Empty acknowledgements
followed by one TakeSnapshot frame (and arbitrary further items), the
correlator consumes exactly N+1 items, passes the snapshot contents to the
artifact decoder unchanged and exactly once, and never reads any item after
the snapshot frame: the whole trace equals the trace on the stream with
everything after the snapshot removed. -/
theorem correlator_snapshot_consumption {Img : Type}
    (decode : List Nat → Except String Img) (save : Img → String → Except String Unit)
    (path : String) (data : List Nat) (n : Nat) (junk : List (Except String WsMsg)) :
    (server_responses decode save path
        (List.replicate n emptyAckFrame ++ snapshotFrame data :: junk)).consumed = n + 1
    ∧ (server_responses decode save path
        (List.replicate n emptyAckFrame ++ snapshotFrame data :: junk)).decoded = [data]
    ∧ server_responses decode save path
          (List.replicate n emptyAckFrame ++ snapshotFrame data :: junk)
        = server_responses decode save path
            (List.replicate n emptyAckFrame ++ [snapshotFrame data]) := by
  induction n with
  | zero =>
    simp only [List.replicate_zero, List.nil_append]
    exact ⟨(server_responses_snapshot_trace decode save path data junk).1,
      (server_responses_snapshot_trace decode save path data junk).2,
      server_responses_snapshot_stops decode save path data junk⟩
  | succ n ih =>
    obtain ⟨ih1, ih2, ih3⟩ := ih
    have hskip : ∀ l, server_responses decode save path (emptyAckFrame :: l)
        = (server_responses decode save path l).after := fun l => rfl
    simp only [List.replicate_succ, List.cons_append, hskip]
    refine ⟨?_, ?_, ?_⟩
    · simp [LoopTrace.after, ih1]
    · simp [LoopTrace.after, ih2]
    · rw [ih3]

/-- Claim C8: when the artifact decoder rejects the snapshot bytes, the
receive loop fails with the decode error and attempts no file write — the
decode gates the save, which is never called. -/
theorem decode_failure_no_write {Img : Type}
    (decode : List Nat → Except String Img) (save : Img → String → Except String Unit)
    (path : String) (data : List Nat) (e : String)
    (rest : List (Except String WsMsg)) (h : decode data = Except.error e) :
    server_responses decode save path (snapshotFrame data :: rest)
      = ⟨LoopOutcome.err (RunError.decodeError e), 1, [data], []⟩ := by
  simp [server_responses, snapshotFrame, text_from_ws, ws_resp_from_text, h]

/-- Witness for decode_failure_no_write: a decoder rejecting a truncated
two-byte PNG prefix makes the loop fail with that decode error and no save
call. -/
theorem decode_failure_no_write_witness :
    (fun _ : List Nat => (Except.error "not a png" : Except String Unit)) [137, 80]
        = Except.error "not a png"
    ∧ server_responses (fun _ => (Except.error "not a png" : Except String Unit))
        (fun _ _ => Except.ok ()) "model.png" [snapshotFrame [137, 80]]
        = ⟨LoopOutcome.err (RunError.decodeError "not a png"), 1, [[137, 80]], []⟩ :=
  ⟨rfl, decode_failure_no_write _ _ _ _ _ _ rfl⟩
